import Mathlib

/-!
Verification development for the NCAA betting matchup analysis engine.

Shallow embedding of the core analysis modules:
* `ncaa_betting/analysis/scoring.py`  — composite scoring, tier assignment,
  Kelly-fraction sizing;
* `ncaa_betting/analysis/pipeline.py` — dimension dispatch and the
  pick-assembly orchestrator (`analyze_matchup`);
* `ncaa_betting/analysis/backtest.py` — ROI / accuracy / calibration and
  outcome recording.

Python floats are modelled as exact rationals (`ℚ`) except for the
Kelly-fraction computation, which uses `Real.exp` and is therefore modelled
over `ℝ`.  Python dictionaries / pandas Series are modelled as association
lists, pandas DataFrames as lists of row records, exceptions as
`Except` / `Option`, and the SQLite `pick_history` table as a list of rows.
-/

namespace NcaaBetting

/-- `str`-valued confidence tier enum (`scoring.ConfidenceTier`). -/
inductive ConfidenceTier where
  | LOCK
  | STRONG
  | LEAN
  | SKIP
deriving DecidableEq, Repr

/-- The `.value` of a `ConfidenceTier` member (it is a `str` enum). -/
def ConfidenceTier.value : ConfidenceTier → String
  | .LOCK => "LOCK"
  | .STRONG => "STRONG"
  | .LEAN => "LEAN"
  | .SKIP => "SKIP"

/-- `scoring._COMPOSITE_FLOOR`. -/
def COMPOSITE_FLOOR : ℚ := 0.0

/-- `scoring._COMPOSITE_CEILING`. -/
def COMPOSITE_CEILING : ℚ := 10.0

/-- `scoring._RAW_TO_SCALE_FACTOR`. -/
def RAW_TO_SCALE_FACTOR : ℚ := 10.0

/-- `scoring._clip`: clamp `value` to `[lo, hi]`. -/
def clip (value lo hi : ℚ) : ℚ := max lo (min hi value)

/-- `pipeline.DimensionResult`.  The optional `raw_data` diagnostic dict is
modelled as an association list of named rationals (`none` = Python `None`). -/
structure DimensionResult where
  name : String
  spread_edge : ℚ
  total_edge : ℚ
  confidence : ℚ
  narrative : String
  raw_data : Option (List (String × ℚ)) := none
deriving DecidableEq, Repr

/-- Python `dict.get(key, default)` / `pd.Series.get(key, default)` on the
association-list model of a dict. -/
def dictGet (d : List (String × ℚ)) (key : String) (default : ℚ) : ℚ :=
  match d.find? (fun p => p.1 == key) with
  | some p => p.2
  | none => default

/-- Python `getattr(dim, edge_attr, 0.0)` where `edge_attr` names one of the
two edge fields of `DimensionResult`. -/
def getattrEdge (dim : DimensionResult) (edge_attr : String) : ℚ :=
  if edge_attr == "spread_edge" then dim.spread_edge
  else if edge_attr == "total_edge" then dim.total_edge
  else 0.0

/-- The loop body of `scoring._weighted_edge`: accumulate
`(total_weight, weighted_sum)` over the dimension results. -/
def weightedEdgeFold (results : List DimensionResult)
    (weights : List (String × ℚ)) (edge_attr : String) : ℚ × ℚ :=
  results.foldl
    (fun acc dim =>
      let w := dictGet weights dim.name 0.0
      let edge := getattrEdge dim edge_attr
      (acc.1 + w, acc.2 + edge * dim.confidence * w))
    (0.0, 0.0)

/-- `scoring._weighted_edge`: weighted composite from a list of dimension
results, clipped to `[0.0, 10.0]`. -/
def weighted_edge (results : List DimensionResult)
    (weights : List (String × ℚ)) (edge_attr : String) : ℚ :=
  if results.isEmpty then 0.0
  else
    let acc := weightedEdgeFold results weights edge_attr
    let total_weight := acc.1
    let weighted_sum := acc.2
    if total_weight == 0.0 then 0.0
    else
      let normalised := weighted_sum / total_weight
      let scaled := |normalised| * RAW_TO_SCALE_FACTOR
      clip scaled COMPOSITE_FLOOR COMPOSITE_CEILING

/-- `scoring.compute_spread_composite`. -/
def compute_spread_composite (results : List DimensionResult)
    (weights : List (String × ℚ)) : ℚ :=
  weighted_edge results weights "spread_edge"

/-- `scoring.compute_total_composite`. -/
def compute_total_composite (results : List DimensionResult)
    (weights : List (String × ℚ)) : ℚ :=
  weighted_edge results weights "total_edge"

/-- `scoring.assign_tier`. -/
def assign_tier (composite : ℚ) : ConfidenceTier :=
  if composite ≥ 7.0 then ConfidenceTier.LOCK
  else if composite ≥ 4.5 then ConfidenceTier.STRONG
  else if composite ≥ 2.0 then ConfidenceTier.LEAN
  else ConfidenceTier.SKIP

/-- Rank of a tier for monotonicity statements: SKIP < LEAN < STRONG < LOCK. -/
def tierRank : ConfidenceTier → ℕ
  | .SKIP => 0
  | .LEAN => 1
  | .STRONG => 2
  | .LOCK => 3

/-- `scoring._clip` applied over the reals (used by the Kelly computation). -/
noncomputable def clipR (value lo hi : ℝ) : ℝ := max lo (min hi value)

/-- The `estimated_prob` local of `scoring.compute_kelly_fraction`: logistic
estimate `1 / (1 + exp(-0.6 * (composite - 5.0)))`, with the exponent clipped
to `[-500, 500]` (the source's guard against float overflow in `math.exp`). -/
noncomputable def kelly_estimated_prob (composite : ℝ) : ℝ :=
  let midpoint : ℝ := 5.0
  let steepness : ℝ := 0.6
  let z := clipR (-steepness * (composite - midpoint)) (-500.0) 500.0
  1.0 / (1.0 + Real.exp z)

/-- `scoring.compute_kelly_fraction`. -/
noncomputable def compute_kelly_fraction (composite : ℝ)
    (implied_prob : ℝ := 0.5) : ℝ :=
  let estimated_prob := kelly_estimated_prob composite
  if implied_prob ≥ 1.0 then 0.0
  else
    let edge := estimated_prob - implied_prob
    if edge ≤ 0.0 then 0.0
    else
      let kelly := edge / (1.0 - implied_prob)
      let max_fraction : ℝ := 0.25
      clipR kelly 0.0 max_fraction

/-! ## Pipeline (`ncaa_betting/analysis/pipeline.py`) -/

/-- `pipeline.MatchupContext`.  pandas Series are association lists of named
rationals; an empty list models an empty Series.  DataFrame-valued fields
(game logs, ATS / O-U records, ratings history) are consumed only by the
out-of-scope dimension signal sources, which are abstracted as a function
parameter, so they are modelled as opaque row lists. -/
structure MatchupContext where
  away_team : String
  home_team : String
  game_date : String
  season : ℤ
  away_ratings : List (String × ℚ) := []
  home_ratings : List (String × ℚ) := []
  away_four_factors : List (String × ℚ) := []
  home_four_factors : List (String × ℚ) := []
  away_game_logs : List (List (String × ℚ)) := []
  home_game_logs : List (List (String × ℚ)) := []
  away_ats : List (List (String × ℚ)) := []
  home_ats : List (List (String × ℚ)) := []
  away_ou : List (List (String × ℚ)) := []
  home_ou : List (List (String × ℚ)) := []
  line : List (String × ℚ) := []
  away_ratings_history : List (List (String × ℚ)) := []
  home_ratings_history : List (List (String × ℚ)) := []

/-- `output.pick_card.PickCard`. -/
structure PickCard where
  away_team : String
  home_team : String
  game_date : String
  spread : ℚ
  total : ℚ
  projected_away_score : ℚ
  projected_home_score : ℚ
  projected_total : ℚ
  true_spread : ℚ
  spread_pick : String
  spread_confidence : String
  spread_composite : ℚ
  spread_value : ℚ
  total_pick : String
  total_confidence : String
  total_composite : ℚ
  total_value : ℚ
  dimension_results : List DimensionResult := []
  headline : String := ""
  key_factors : List String := []
  trap_warnings : List String := []

/-- The keys of `pipeline._DIMENSION_REGISTRY`, in source order. -/
def registryNames : List String :=
  ["pace_adjusted", "four_factors", "opponent_quality", "home_away",
   "recency", "shooting_zones", "turnover_chain", "ft_rate",
   "ats_correlation", "variance", "rank_asymmetry", "trap_detect"]

/-- `AnalysisPipeline.DIMENSION_WEIGHTS`, in source (insertion) order. -/
def DIMENSION_WEIGHTS : List (String × ℚ) :=
  [("pace_adjusted", 0.14), ("four_factors", 0.14),
   ("opponent_quality", 0.10), ("home_away", 0.08),
   ("recency", 0.09), ("shooting_zones", 0.07),
   ("turnover_chain", 0.07), ("ft_rate", 0.05),
   ("ats_correlation", 0.08), ("variance", 0.06),
   ("rank_asymmetry", 0.06), ("trap_detect", 0.06)]

/-- A dimension signal-source callable `(ctx) -> DimensionResult`.  The
individual dimension computations are out-of-scope collaborators; a raising
call is modelled as `none`. -/
def DimFunc : Type := MatchupContext → Option DimensionResult

/-- `AnalysisPipeline._get_dimension_func`: resolves a registry name to its
callable, raising `KeyError` (modelled as `Except.error`) when the name is
not in the static registry.  The behaviour of each resolved callable is the
abstract parameter `dims`. -/
def get_dimension_func (dims : String → DimFunc) (dim_name : String) :
    Except String DimFunc :=
  if registryNames.contains dim_name then Except.ok (dims dim_name)
  else Except.error ("Unknown dimension: " ++ dim_name)

/-- The neutral `DimensionResult` built by the `except` clause of
`AnalysisPipeline._run_dimension`. -/
def neutralResult (dim_name : String) : DimensionResult :=
  { name := dim_name
    spread_edge := 0.0
    total_edge := 0.0
    confidence := 0.0
    narrative := "[" ++ dim_name ++ "] dimension unavailable." }

/-- The `try` block of `AnalysisPipeline._run_dimension`: resolve the
callable, invoke it, clamp the returned confidence to `[0, 1]`.  Any raised
exception (unknown-name `KeyError` included) is an `Except.error`. -/
def run_dimension_body (dims : String → DimFunc) (dim_name : String)
    (ctx : MatchupContext) : Except String DimensionResult :=
  match get_dimension_func dims dim_name with
  | Except.error e => Except.error e
  | Except.ok func =>
      match func ctx with
      | none => Except.error ("Dimension " ++ dim_name ++ " raised")
      | some result =>
          Except.ok
            { result with confidence := max 0.0 (min 1.0 result.confidence) }

/-- `AnalysisPipeline._run_dimension`: the `try` body with an
`except Exception` clause converting any error into the neutral result, so
the dispatcher itself never raises. -/
def run_dimension (dims : String → DimFunc) (dim_name : String)
    (ctx : MatchupContext) : DimensionResult :=
  match run_dimension_body dims dim_name ctx with
  | Except.ok result => result
  | Except.error _ => neutralResult dim_name

/-- `AnalysisPipeline._aggregate_direction`: confidence-weighted signed sum
of one edge attribute across all results. -/
def aggregate_direction (results : List DimensionResult)
    (edge_attr : String) : ℚ :=
  (results.map (fun r => getattrEdge r edge_attr * r.confidence)).sum

/-- The `results` list accumulated by the loop at the top of
`AnalysisPipeline.analyze_matchup` (one dispatcher call per key of
`DIMENSION_WEIGHTS`). -/
def matchupResults (dims : String → DimFunc) (ctx : MatchupContext) :
    List DimensionResult :=
  DIMENSION_WEIGHTS.map (fun p => run_dimension dims p.1 ctx)

/-- Python `round` (banker's rounding, half to even) on an exact rational. -/
def roundHalfEven (q : ℚ) : ℤ :=
  let n := q.floor
  let frac := q - n
  if frac < 1/2 then n
  else if 1/2 < frac then n + 1
  else if n % 2 = 0 then n else n + 1

/-- Python `round(x, 1)`. -/
def round1 (q : ℚ) : ℚ := (roundHalfEven (q * 10) : ℚ) / 10

/-- Lines 344--359 of `analyze_matchup`: projected away / home scores, from
the `pace_adjusted` dimension's `raw_data` when present and non-empty (a
Python empty dict is falsy), otherwise the ratings-based fallback. -/
def projectedScores (ctx : MatchupContext)
    (results : List DimensionResult) : ℚ × ℚ :=
  let pace_result := results.find? (fun r => r.name == "pace_adjusted")
  let fallback : ℚ × ℚ :=
    let away_o := if ¬ ctx.away_ratings.isEmpty then
      dictGet ctx.away_ratings "adj_o" 105.0 else 105.0
    let home_d := if ¬ ctx.home_ratings.isEmpty then
      dictGet ctx.home_ratings "adj_d" 105.0 else 105.0
    let home_o := if ¬ ctx.home_ratings.isEmpty then
      dictGet ctx.home_ratings "adj_o" 105.0 else 105.0
    let away_d := if ¬ ctx.away_ratings.isEmpty then
      dictGet ctx.away_ratings "adj_d" 105.0 else 105.0
    let avg_tempo : ℚ := 67.5
    ((away_o + home_d) / 2.0 * avg_tempo / 100.0,
     (home_o + away_d) / 2.0 * avg_tempo / 100.0)
  match pace_result with
  | some r =>
      match r.raw_data with
      | some d =>
          if d.isEmpty then fallback
          else (dictGet d "away_pts" 70.0, dictGet d "home_pts" 70.0)
      | none => fallback
  | none => fallback

/-- Insertion step for the stable descending sort below: `x` goes in front
of the first element with a strictly smaller key (equal keys keep order). -/
def insertDesc (key : DimensionResult → ℚ) (x : DimensionResult) :
    List DimensionResult → List DimensionResult
  | [] => [x]
  | y :: ys => if key y < key x then x :: y :: ys else y :: insertDesc key x ys

/-- A stable insertion sort, descending on a rational key (models Python's
stable `sorted(..., reverse=True)`: equal keys keep list order). -/
def sortByKeyDesc (key : DimensionResult → ℚ) :
    List DimensionResult → List DimensionResult
  | [] => []
  | x :: xs => insertDesc key x (sortByKeyDesc key xs)

/-- `AnalysisPipeline.analyze_matchup`: run all twelve dimensions through the
dispatcher and assemble a `PickCard`.  `dims` abstracts the out-of-scope
dimension callables behind the registry. -/
def analyze_matchup (dims : String → DimFunc) (ctx : MatchupContext) :
    PickCard :=
  let results := matchupResults dims ctx
  let spread_composite := compute_spread_composite results DIMENSION_WEIGHTS
  let total_composite := compute_total_composite results DIMENSION_WEIGHTS
  let spread_direction := aggregate_direction results "spread_edge"
  let total_direction := aggregate_direction results "total_edge"
  let spread_tier := assign_tier spread_composite
  let total_tier := assign_tier total_composite
  -- `primary_tier` is computed by the source but never used afterwards.
  let _primary_tier :=
    if spread_composite ≥ total_composite then spread_tier else total_tier
  let spread_pick_side :=
    if spread_direction ≥ 0 then ctx.away_team else ctx.home_team
  let total_pick_side := if total_direction ≥ 0 then "OVER" else "UNDER"
  let vegas_spread :=
    if ¬ ctx.line.isEmpty then dictGet ctx.line "spread" 0.0 else 0.0
  let vegas_total :=
    if ¬ ctx.line.isEmpty then dictGet ctx.line "total" 140.0 else 140.0
  let proj := projectedScores ctx results
  let proj_away := proj.1
  let proj_home := proj.2
  let projected_total := proj_away + proj_home
  let true_spread := proj_away - proj_home
  let sorted_results :=
    sortByKeyDesc (fun r => |r.spread_edge| * r.confidence) results
  let key_factors :=
    (sorted_results.take 3).filterMap
      (fun r => if r.narrative ≠ "" then some r.narrative else none)
  let trap_result := results.find? (fun r => r.name == "trap_detect")
  let trap_warnings :=
    match trap_result with
    | some r =>
        match r.raw_data with
        | some d =>
            if ¬ d.isEmpty ∧ dictGet d "trap_score" 0 > 0.3 then [r.narrative]
            else []
        | none => []
    | none => []
  let headline :=
    spread_pick_side ++ " " ++ spread_tier.value ++ " (" ++
      (if spread_pick_side ≠ "" then "covers" else "N/A") ++ ") | " ++
      total_pick_side ++ " " ++ total_tier.value
  { away_team := ctx.away_team
    home_team := ctx.home_team
    game_date := ctx.game_date
    spread := vegas_spread
    total := vegas_total
    projected_away_score := round1 proj_away
    projected_home_score := round1 proj_home
    projected_total := round1 projected_total
    true_spread := round1 true_spread
    spread_pick := spread_pick_side
    spread_confidence := spread_tier.value
    spread_composite := spread_composite
    spread_value :=
      round1 (true_spread - (if vegas_spread == 0 then 0 else vegas_spread))
    total_pick := total_pick_side
    total_confidence := total_tier.value
    total_composite := total_composite
    total_value :=
      round1 (projected_total - (if vegas_total == 0 then 140 else vegas_total))
    dimension_results := results
    headline := headline
    key_factors := key_factors
    trap_warnings := trap_warnings }

/-! ## Backtest (`ncaa_betting/analysis/backtest.py`) -/

/-- `backtest._JUICE_RISK`. -/
def JUICE_RISK : ℚ := 110.0

/-- `backtest._JUICE_WIN`. -/
def JUICE_WIN : ℚ := 100.0

/-- `backtest._tier_from_composite` (string-valued mirror of `assign_tier`). -/
def tier_from_composite (composite : ℚ) : String :=
  if composite ≥ 7.0 then "LOCK"
  else if composite ≥ 4.5 then "STRONG"
  else if composite ≥ 2.0 then "LEAN"
  else "SKIP"

/-- `backtest._compute_roi`: flat-unit ROI at standard -110 juice.  The
`pushes` argument is accepted and ignored, exactly as in the source. -/
def compute_roi (wins losses pushes : ℕ) : ℚ :=
  let decided := wins + losses
  if decided = 0 then 0.0
  else
    let profit := (wins : ℚ) * JUICE_WIN - (losses : ℚ) * JUICE_RISK
    let total_risked := (decided : ℚ) * JUICE_RISK
    profit / total_risked

/-- `backtest._compute_accuracy`: win percentage, excluding pushes. -/
def compute_accuracy (wins losses : ℕ) : ℚ :=
  let decided := wins + losses
  if decided = 0 then 0.0
  else (wins : ℚ) / (decided : ℚ)

/-- One row of the DataFrame handed to `backtest._build_calibration`:
`composite_score` plus the recorded `result` code. -/
structure CalRow where
  composite_score : ℚ
  result : String
deriving DecidableEq, Repr

/-- One row of the calibration output DataFrame. -/
structure CalibrationRow where
  bin : String
  predicted : ℚ
  actual : ℚ
  count : ℕ
deriving DecidableEq, Repr

/-- The bin labels of `_build_calibration`, in source order. -/
def bin_labels : List String := ["0-2", "2-4.5", "4.5-7", "7-8.5", "8.5-10"]

/-- `bin_midpoints` of `_build_calibration`. -/
def bin_midpoints : List (String × ℚ) :=
  [("0-2", 0.10), ("2-4.5", 0.325), ("4.5-7", 0.575),
   ("7-8.5", 0.775), ("8.5-10", 0.925)]

/-- `pd.cut(..., bins=[0.0, 2.0, 4.5, 7.0, 8.5, 10.01], right=False)`:
left-closed, right-open intervals; values outside every interval get no
label (pandas NaN bin). -/
def binLabel (composite : ℚ) : Option String :=
  if composite < 0.0 then none
  else if composite < 2.0 then some "0-2"
  else if composite < 4.5 then some "2-4.5"
  else if composite < 7.0 then some "4.5-7"
  else if composite < 8.5 then some "7-8.5"
  else if composite < 10.01 then some "8.5-10"
  else none

/-- The `decided` filter of `_build_calibration`:
`df[df["result"].isin(["W", "L"])]`. -/
def decidedRows (df : List CalRow) : List CalRow :=
  df.filter (fun r => r.result == "W" || r.result == "L")

/-- `backtest._build_calibration`: bucket decided picks by composite score
and emit one row per non-empty bucket. -/
def build_calibration (df : List CalRow) : List CalibrationRow :=
  let decided := decidedRows df
  if decided.isEmpty then []
  else
    bin_labels.filterMap (fun bin_label =>
      let bin_data :=
        decided.filter (fun r => binLabel r.composite_score == some bin_label)
      if bin_data.isEmpty then none
      else some
        { bin := bin_label
          predicted := dictGet bin_midpoints bin_label 0.0
          actual :=
            ((bin_data.countP (fun r => r.result == "W") : ℚ)) /
              (bin_data.length : ℚ)
          count := bin_data.length })

/-- Direct count of decided picks (result `W` or `L`) in one band of the
input DataFrame, stated independently of the calibration pipeline. -/
def bandCount (df : List CalRow) (label : String) : ℕ :=
  ((decidedRows df).filter
    (fun r => binLabel r.composite_score == some label)).length

/-- Direct count of decided wins in one band of the input DataFrame. -/
def bandWins (df : List CalRow) (label : String) : ℕ :=
  ((decidedRows df).filter
    (fun r => binLabel r.composite_score == some label)).countP
    (fun r => r.result == "W")

/-- One row of the `pick_history` table, restricted to the columns that
`backtest.record_result` touches; `result` is `NULL`-able. -/
structure PickRow where
  game_date : String
  away_team : String
  home_team : String
  pick_type : String
  result : Option String := none
deriving DecidableEq, Repr

/-- Python `str.upper()` (ASCII-faithful model). -/
def pyUpper (s : String) : String := String.mk (s.data.map Char.toUpper)

/-- Python `str.lower()` (ASCII-faithful model). -/
def pyLower (s : String) : String := String.mk (s.data.map Char.toLower)

/-- The `WHERE` clause of the `UPDATE` in `record_result`: exact match on
game date, both teams and pick type, with `result IS NULL`. -/
def matchesPick (game_date away_team home_team pick_type : String)
    (r : PickRow) : Bool :=
  r.game_date == game_date && r.away_team == away_team &&
    r.home_team == home_team && r.pick_type == pick_type &&
    r.result == none

/-- `backtest.record_result` over the list-of-rows model of `pick_history`.
A raised `ValueError` is `Except.error`; a successful call returns the
updated table together with the cursor row count.  (The error is raised
before the `UPDATE` executes, so on error the table is untouched.) -/
def record_result (rows : List PickRow)
    (game_date away_team home_team pick_type result : String) :
    Except String (List PickRow × ℕ) :=
  let result := pyUpper result
  let pick_type := pyLower pick_type
  if ¬ (result = "W" ∨ result = "L" ∨ result = "P") then
    Except.error ("result must be W, L, or P, got " ++ result)
  else if ¬ (pick_type = "spread" ∨ pick_type = "total") then
    Except.error ("pick_type must be spread or total, got " ++ pick_type)
  else
    Except.ok
      (rows.map (fun r =>
        if matchesPick game_date away_team home_team pick_type r then
          { r with result := some result }
        else r),
       rows.countP (matchesPick game_date away_team home_team pick_type))

/-! ## Spec-side auxiliary definitions and concrete example inputs -/

/-- Spec-side total accumulated weight: the sum of the weight-table lookups
over the listed dimension results (unmatched dimensions contribute zero). -/
def totalWeightOf (results : List DimensionResult)
    (weights : List (String × ℚ)) : ℚ :=
  (results.map (fun d => dictGet weights d.name 0)).sum

/-- Spec-side weighted directional sum: `Σ edge * confidence * weight`. -/
def weightedSumOf (results : List DimensionResult)
    (weights : List (String × ℚ)) (edge_attr : String) : ℚ :=
  (results.map
    (fun d => getattrEdge d edge_attr * d.confidence * dictGet weights d.name 0)).sum

/-- A dimension-source assignment in which every callable raises. -/
def dimsNone : String → DimFunc := fun _ => fun _ => none

/-- A dimension-source assignment in which `pace_adjusted` returns a result
with out-of-range confidence `5.0` and every other callable raises. -/
def dimsEx : String → DimFunc := fun dim_name => fun _ =>
  if dim_name = "pace_adjusted" then
    some { name := "pace_adjusted", spread_edge := 1.0, total_edge := 2.0,
           confidence := 5.0, narrative := "pace signal" }
  else none

/-- A concrete matchup context with no database data (all containers empty,
in particular an empty market-line Series). -/
def ctxEx : MatchupContext :=
  { away_team := "Duke", home_team := "UNC",
    game_date := "2025-02-14", season := 2025 }

/-- A concrete calibration input: three decided picks and one push. -/
def dfEx : List CalRow :=
  [{ composite_score := 1, result := "W" },
   { composite_score := 3, result := "L" },
   { composite_score := 3, result := "W" },
   { composite_score := 5, result := "P" }]

/-- A concrete one-row `pick_history` table with an unresolved pick. -/
def rowsEx : List PickRow :=
  [{ game_date := "2025-01-01", away_team := "A", home_team := "B",
     pick_type := "spread" }]

/-- The table `rowsEx` after its single pick is resolved as a win. -/
def rowsUpdEx : List PickRow :=
  [{ game_date := "2025-01-01", away_team := "A", home_team := "B",
     pick_type := "spread", result := some "W" }]

/-! ## Theorems -/

/-- Normalisation of the float-style rational literal `0.0`. -/
theorem ratZeroLit : (0.0 : ℚ) = 0 := by norm_num

/-- Normalisation of the float-style rational literal `1.0`. -/
theorem ratOneLit : (1.0 : ℚ) = 1 := by norm_num

/-- Normalisation of the float-style rational literal `10.0`. -/
theorem ratTenLit : (10.0 : ℚ) = 10 := by norm_num

/-- Normalisation of the float-style rational literal `140.0`. -/
theorem ratTotalLit : (140.0 : ℚ) = 140 := by norm_num

/-- C4: `assign_tier` is the fixed step function with inclusive lower bounds
(`>= 7.0` LOCK, `>= 4.5` STRONG, `>= 2.0` LEAN, otherwise SKIP), it is
monotonic non-decreasing in the composite, and it has the exact boundary
behaviour at 7.0, 4.5 and 2.0 (7.0 is LOCK, 6.999 is STRONG, 4.5 is STRONG,
4.499 is LEAN, 2.0 is LEAN, 1.999 is SKIP). -/
theorem assign_tier_step_spec :
    (∀ c : ℚ, assign_tier c = ConfidenceTier.LOCK ↔ 7.0 ≤ c) ∧
    (∀ c : ℚ, assign_tier c = ConfidenceTier.STRONG ↔ 4.5 ≤ c ∧ c < 7.0) ∧
    (∀ c : ℚ, assign_tier c = ConfidenceTier.LEAN ↔ 2.0 ≤ c ∧ c < 4.5) ∧
    (∀ c : ℚ, assign_tier c = ConfidenceTier.SKIP ↔ c < 2.0) ∧
    (∀ c d : ℚ, c ≤ d → tierRank (assign_tier c) ≤ tierRank (assign_tier d)) ∧
    assign_tier 7.0 = ConfidenceTier.LOCK ∧
    assign_tier 6.999 = ConfidenceTier.STRONG ∧
    assign_tier 4.5 = ConfidenceTier.STRONG ∧
    assign_tier 4.499 = ConfidenceTier.LEAN ∧
    assign_tier 2.0 = ConfidenceTier.LEAN ∧
    assign_tier 1.999 = ConfidenceTier.SKIP := by
  refine ⟨?_, ?_, ?_, ?_, ?_, ?_, ?_, ?_, ?_, ?_, ?_⟩
  · intro c
    unfold assign_tier
    split_ifs with h1 h2 h3 <;> simp_all <;> linarith
  · intro c
    unfold assign_tier
    split_ifs with h1 h2 h3 <;> simp_all <;>
      first
        | (intro h; linarith)
        | (constructor <;> linarith)
  · intro c
    unfold assign_tier
    split_ifs with h1 h2 h3 <;> simp_all <;>
      first
        | (intro h; linarith)
        | (constructor <;> linarith)
  · intro c
    unfold assign_tier
    split_ifs with h1 h2 h3 <;> simp_all <;> linarith
  · intro c d hcd
    unfold assign_tier
    split_ifs <;> simp [tierRank] <;> linarith
  · norm_num [assign_tier]
  · norm_num [assign_tier]
  · norm_num [assign_tier]
  · norm_num [assign_tier]
  · norm_num [assign_tier]
  · norm_num [assign_tier]

/-- C4 witness: the monotonicity conjunct applied at the concrete composites
2 and 8, together with the exact boundary value at 7.0. -/
theorem assign_tier_step_spec_witness :
    tierRank (assign_tier 2) ≤ tierRank (assign_tier 8) ∧
    assign_tier 7.0 = ConfidenceTier.LOCK :=
  ⟨assign_tier_step_spec.2.2.2.2.1 2 8 (by norm_num),
   assign_tier_step_spec.2.2.2.2.2.1⟩

/-- C7: backtest ROI equals `(100*W - 110*L) / (110*(W+L))` with pushes
excluded and 0.0 when no decided bets; accuracy equals `W/(W+L)` with the
same exclusion and default; ROI is exactly `10/11 ≈ 0.909` for 10 wins and
0 losses, and exactly `-1` for 0 wins and 10 losses. -/
theorem compute_roi_accuracy_spec :
    (∀ wins losses pushes : ℕ,
      compute_roi wins losses pushes =
        if wins + losses = 0 then 0
        else ((100 : ℚ) * wins - 110 * losses) / (110 * ((wins : ℚ) + losses))) ∧
    (∀ wins losses : ℕ,
      compute_accuracy wins losses =
        if wins + losses = 0 then 0 else (wins : ℚ) / ((wins : ℚ) + losses)) ∧
    (∀ pushes : ℕ, compute_roi 10 0 pushes = 10 / 11) ∧
    (∀ pushes : ℕ, compute_roi 0 10 pushes = -1) ∧
    (∀ pushes : ℕ, compute_roi 0 0 pushes = 0) := by
  refine ⟨?_, ?_, ?_, ?_, ?_⟩
  · intro wins losses pushes
    unfold compute_roi JUICE_WIN JUICE_RISK
    by_cases h : wins + losses = 0
    · simp [h]
      norm_num
    · simp only [h, if_false, reduceIte]
      push_cast
      ring_nf
  · intro wins losses
    unfold compute_accuracy
    by_cases h : wins + losses = 0
    · simp [h]
      norm_num
    · simp only [h, if_false, reduceIte]
      push_cast
      ring_nf
  · intro pushes
    norm_num [compute_roi, JUICE_WIN, JUICE_RISK]
  · intro pushes
    norm_num [compute_roi, JUICE_WIN, JUICE_RISK]
  · intro pushes
    norm_num [compute_roi]

/-- The accumulator of `_weighted_edge`'s loop equals the pair of spec-side
sums, for any initial accumulator. -/
theorem weightedEdgeFold_eq_sums (results : List DimensionResult)
    (weights : List (String × ℚ)) (edge_attr : String) :
    weightedEdgeFold results weights edge_attr =
      (totalWeightOf results weights,
       weightedSumOf results weights edge_attr) := by
  have general :
      ∀ (l : List DimensionResult) (init : ℚ × ℚ),
        l.foldl
          (fun acc dim =>
            let w := dictGet weights dim.name 0.0
            let edge := getattrEdge dim edge_attr
            (acc.1 + w, acc.2 + edge * dim.confidence * w))
          init =
        (init.1 + totalWeightOf l weights,
         init.2 + weightedSumOf l weights edge_attr) := by
    intro l
    induction l with
    | nil =>
        intro init
        simp [totalWeightOf, weightedSumOf]
    | cons d rest ih =>
        intro init
        rw [List.foldl_cons, ih]
        simp only [totalWeightOf, weightedSumOf, List.map_cons,
          List.sum_cons, Prod.mk.injEq, ratZeroLit]
        constructor <;> ring
  have h := general results ((0.0 : ℚ), (0.0 : ℚ))
  unfold weightedEdgeFold
  rw [h]
  norm_num

/-- C3: each composite equals 0.0 when the summed weights of the listed
dimensions are zero (in particular on the empty list), and otherwise equals
the absolute value of the weight-normalised sum of
`edge * confidence * weight`, scaled by 10.0 and clamped to `[0.0, 10.0]`;
hence every composite lies in `[0.0, 10.0]` and is never negative. -/
theorem composite_spec :
    (∀ weights, compute_spread_composite [] weights = 0 ∧
      compute_total_composite [] weights = 0) ∧
    (∀ results weights,
      compute_spread_composite results weights =
        if totalWeightOf results weights = 0 then 0
        else
          clip
            (|weightedSumOf results weights "spread_edge" /
                totalWeightOf results weights| * 10) 0 10) ∧
    (∀ results weights,
      compute_total_composite results weights =
        if totalWeightOf results weights = 0 then 0
        else
          clip
            (|weightedSumOf results weights "total_edge" /
                totalWeightOf results weights| * 10) 0 10) ∧
    (∀ results weights,
      0 ≤ compute_spread_composite results weights ∧
      compute_spread_composite results weights ≤ 10 ∧
      0 ≤ compute_total_composite results weights ∧
      compute_total_composite results weights ≤ 10) := by
  have edge_eq :
      ∀ results weights edge_attr,
        weighted_edge results weights edge_attr =
          if totalWeightOf results weights = 0 then 0
          else
            clip
              (|weightedSumOf results weights edge_attr /
                  totalWeightOf results weights| * 10) 0 10 := by
    intro results weights edge_attr
    unfold weighted_edge
    rw [weightedEdgeFold_eq_sums]
    cases results with
    | nil =>
        simp [totalWeightOf, weightedSumOf]
        norm_num
    | cons d rest =>
        simp only [List.isEmpty_cons, if_false, Bool.false_eq_true]
        by_cases h : totalWeightOf (d :: rest) weights = 0
        · have hbeq : (totalWeightOf (d :: rest) weights == 0.0) = true := by
            rw [beq_iff_eq, h]
            norm_num
          simp only [hbeq, if_true, if_pos h]
          norm_num
        · have hbeq : (totalWeightOf (d :: rest) weights == 0.0) = false := by
            rw [beq_eq_false_iff_ne]
            intro hc
            apply h
            rw [hc]
            norm_num
          simp only [hbeq, if_false, Bool.false_eq_true,
            RAW_TO_SCALE_FACTOR, COMPOSITE_FLOOR, COMPOSITE_CEILING, if_neg h]
          norm_num
  have clip_mem : ∀ x : ℚ, 0 ≤ clip x 0 10 ∧ clip x 0 10 ≤ 10 := by
    intro x
    unfold clip
    constructor
    · exact le_max_left 0 _
    · exact max_le (by norm_num) (min_le_left _ _)
  refine ⟨?_, ?_, ?_, ?_⟩
  · intro weights
    constructor <;>
      norm_num [compute_spread_composite, compute_total_composite,
        weighted_edge]
  · intro results weights
    exact edge_eq results weights "spread_edge"
  · intro results weights
    exact edge_eq results weights "total_edge"
  · intro results weights
    have hs := edge_eq results weights "spread_edge"
    have ht := edge_eq results weights "total_edge"
    unfold compute_spread_composite compute_total_composite
    rw [hs, ht]
    by_cases h : totalWeightOf results weights = 0 <;>
      simp [h, clip_mem]

/-- C5: `compute_kelly_fraction` always lies in `[0.0, 0.25]`; it is `0.0`
whenever the implied probability is at least `1.0` or the logistic estimate
(the source's `estimated_prob`, with its exponent-overflow guard) does not
exceed the implied probability; otherwise it equals
`(estimated_prob - implied_prob) / (1 - implied_prob)` capped at `0.25`; and
at composite exactly `5.0` with implied probability `0.5` it is exactly
`0.0`. -/
theorem kelly_spec :
    (∀ composite implied_prob : ℝ,
      (0 ≤ compute_kelly_fraction composite implied_prob ∧
        compute_kelly_fraction composite implied_prob ≤ 0.25) ∧
      (1 ≤ implied_prob → compute_kelly_fraction composite implied_prob = 0) ∧
      (kelly_estimated_prob composite ≤ implied_prob →
        compute_kelly_fraction composite implied_prob = 0) ∧
      (implied_prob < 1 → implied_prob < kelly_estimated_prob composite →
        compute_kelly_fraction composite implied_prob =
          min ((kelly_estimated_prob composite - implied_prob) /
                (1 - implied_prob)) 0.25)) ∧
    compute_kelly_fraction 5.0 0.5 = 0 := by
  have keq :
      ∀ c p : ℝ,
        compute_kelly_fraction c p =
          if 1 ≤ p then 0
          else if kelly_estimated_prob c ≤ p then 0
          else clipR ((kelly_estimated_prob c - p) / (1 - p)) 0 0.25 := by
    intro c p
    unfold compute_kelly_fraction
    simp only [show (1.0 : ℝ) = 1 from by norm_num,
      show (0.0 : ℝ) = 0 from by norm_num, ge_iff_le, sub_nonpos]
  have clip_eval :
      ∀ v : ℝ, 0 < v → clipR v 0 0.25 = min v 0.25 := by
    intro v hv
    unfold clipR
    rw [min_comm v 0.25]
    exact max_eq_right (le_min (by norm_num) (le_of_lt hv))
  have hest : kelly_estimated_prob 5.0 = 0.5 := by
    have hz : clipR (-(0.6 : ℝ) * ((5.0 : ℝ) - 5.0)) (-500.0) 500.0 = 0 := by
      unfold clipR
      norm_num
    unfold kelly_estimated_prob
    dsimp only
    rw [hz, Real.exp_zero]
    norm_num
  constructor
  · intro composite implied_prob
    refine ⟨?_, ?_, ?_, ?_⟩
    · rw [keq]
      split_ifs with h1 h2
      · norm_num
      · norm_num
      · unfold clipR
        constructor
        · exact le_max_left _ _
        · exact max_le (by norm_num) (min_le_left _ _)
    · intro h
      rw [keq, if_pos h]
    · intro h
      rw [keq]
      by_cases h1 : 1 ≤ implied_prob
      · rw [if_pos h1]
      · rw [if_neg h1, if_pos h]
    · intro hlt hedge
      rw [keq, if_neg (not_le.mpr hlt), if_neg (not_le.mpr hedge)]
      exact clip_eval _ (div_pos (sub_pos.mpr hedge) (by linarith))
  · rw [keq, hest]
    norm_num

/-- C5 witness: the first zero branch applied at composite `0` with
degenerate implied probability `2` (at least `1.0`), plus the exact value at
composite `5.0`, implied probability `0.5`. -/
theorem kelly_spec_witness :
    compute_kelly_fraction 0 2 = 0 ∧ compute_kelly_fraction 5.0 0.5 = 0 :=
  ⟨((kelly_spec.1 0 2).2.1 (by norm_num)), kelly_spec.2⟩

/-- C2 counterexample: dispatching the unregistered name `"bogus"` does NOT
surface the configuration error to the caller — `_get_dimension_func` does
raise (the `try` body errors with the unknown-dimension `KeyError`), but
`_run_dimension`'s blanket `except Exception` catches it and converts it into
the neutral `DimensionResult`, contradicting the claim that the unknown-name
error is never caught internally and never converted into a neutral result. -/
theorem run_dimension_unknown_counterexample :
    registryNames.contains "bogus" = false ∧
    run_dimension_body dimsNone "bogus" ctxEx =
      Except.error "Unknown dimension: bogus" ∧
    run_dimension dimsNone "bogus" ctxEx = neutralResult "bogus" := by
  refine ⟨by decide, ?_, ?_⟩ <;> rfl

/-- C2 (amended): for every dimension name not present in the static
registry, the resolution step (`_get_dimension_func`) raises the
unknown-dimension error, but the dispatcher (`_run_dimension`) catches it
internally and returns the neutral `DimensionResult` instead of raising to
the caller. -/
theorem run_dimension_unknown_spec :
    ∀ (dims : String → DimFunc) (ctx : MatchupContext) (dim_name : String),
      registryNames.contains dim_name = false →
      get_dimension_func dims dim_name =
        Except.error ("Unknown dimension: " ++ dim_name) ∧
      run_dimension_body dims dim_name ctx =
        Except.error ("Unknown dimension: " ++ dim_name) ∧
      run_dimension dims dim_name ctx = neutralResult dim_name := by
  intro dims ctx dim_name h
  have hres : get_dimension_func dims dim_name =
      Except.error ("Unknown dimension: " ++ dim_name) := by
    have hmem : dim_name ∉ registryNames := by simpa using h
    unfold get_dimension_func
    simp [hmem]
  have hbody : run_dimension_body dims dim_name ctx =
      Except.error ("Unknown dimension: " ++ dim_name) := by
    unfold run_dimension_body
    rw [hres]
  refine ⟨hres, hbody, ?_⟩
  unfold run_dimension
  rw [hbody]

/-- C2 (amended) witness: the amended claim applied at the concrete
unregistered name `"bogus"` with concrete dimension sources and context. -/
theorem run_dimension_unknown_spec_witness :
    get_dimension_func dimsEx "bogus" =
      Except.error ("Unknown dimension: " ++ "bogus") ∧
    run_dimension_body dimsEx "bogus" ctxEx =
      Except.error ("Unknown dimension: " ++ "bogus") ∧
    run_dimension dimsEx "bogus" ctxEx = neutralResult "bogus" :=
  run_dimension_unknown_spec dimsEx ctxEx "bogus" (by decide)

/-- C6: for a registered dimension name, a raising signal source is converted
by the dispatcher into the neutral result (zero spread edge, zero total edge,
zero confidence, "dimension unavailable" narrative) and the exception never
propagates; a non-raising call has its reported confidence clamped into
`[0, 1]`. -/
theorem run_dimension_fault_isolation :
    ∀ (dims : String → DimFunc) (dim_name : String) (ctx : MatchupContext),
      registryNames.contains dim_name = true →
      (dims dim_name ctx = none →
        run_dimension dims dim_name ctx = neutralResult dim_name ∧
        (run_dimension dims dim_name ctx).spread_edge = 0 ∧
        (run_dimension dims dim_name ctx).total_edge = 0 ∧
        (run_dimension dims dim_name ctx).confidence = 0 ∧
        (run_dimension dims dim_name ctx).narrative =
          "[" ++ dim_name ++ "] dimension unavailable.") ∧
      (∀ r, dims dim_name ctx = some r →
        run_dimension dims dim_name ctx =
          { r with confidence := max 0.0 (min 1.0 r.confidence) } ∧
        0 ≤ (run_dimension dims dim_name ctx).confidence ∧
        (run_dimension dims dim_name ctx).confidence ≤ 1) := by
  intro dims dim_name ctx hreg
  have hok : get_dimension_func dims dim_name = Except.ok (dims dim_name) := by
    unfold get_dimension_func
    rw [if_pos]
    exact hreg
  constructor
  · intro hnone
    have hrun : run_dimension dims dim_name ctx = neutralResult dim_name := by
      unfold run_dimension run_dimension_body
      rw [hok]
      simp [hnone]
    refine ⟨hrun, ?_, ?_, ?_, ?_⟩ <;>
      rw [hrun] <;> norm_num [neutralResult]
  · intro r hsome
    have hrun : run_dimension dims dim_name ctx =
        { r with confidence := max 0.0 (min 1.0 r.confidence) } := by
      unfold run_dimension run_dimension_body
      rw [hok]
      simp [hsome]
    refine ⟨hrun, ?_, ?_⟩ <;> rw [hrun]
    · simp only [ratZeroLit]
      exact le_max_left _ _
    · simp only [ratZeroLit, ratOneLit]
      exact max_le (by norm_num) (min_le_left _ _)

/-- C6 witness: the fault-isolation theorem applied at the registered name
`"four_factors"` whose source raises (yielding the neutral result) and at
`"pace_adjusted"` whose source reports the out-of-range confidence `5.0`
(clamped into `[0, 1]`). -/
theorem run_dimension_fault_isolation_witness :
    run_dimension dimsEx "four_factors" ctxEx = neutralResult "four_factors" ∧
    (run_dimension dimsEx "pace_adjusted" ctxEx).confidence ≤ 1 ∧
    0 ≤ (run_dimension dimsEx "pace_adjusted" ctxEx).confidence :=
  ⟨((run_dimension_fault_isolation dimsEx "four_factors" ctxEx
      (by decide)).1 rfl).1,
   ((run_dimension_fault_isolation dimsEx "pace_adjusted" ctxEx
      (by decide)).2 _ rfl).2.2,
   ((run_dimension_fault_isolation dimsEx "pace_adjusted" ctxEx
      (by decide)).2 _ rfl).2.1⟩

/-- Every dispatcher call against the all-raising source assignment yields
the neutral result (registered or not). -/
theorem run_dimension_dimsNone (dim_name : String) (ctx : MatchupContext) :
    run_dimension dimsNone dim_name ctx = neutralResult dim_name := by
  unfold run_dimension run_dimension_body get_dimension_func dimsNone
  by_cases h : registryNames.contains dim_name = true
  · rw [if_pos h]
  · rw [if_neg h]

/-- A composite over results whose confidences are all zero is zero. -/
theorem weighted_edge_allzero (results : List DimensionResult)
    (weights : List (String × ℚ)) (edge_attr : String)
    (h : ∀ r ∈ results, r.confidence = 0) :
    weighted_edge results weights edge_attr = 0 := by
  have hsum : weightedSumOf results weights edge_attr = 0 := by
    unfold weightedSumOf
    apply List.sum_eq_zero
    intro x hx
    obtain ⟨r, hr, rfl⟩ := List.mem_map.mp hx
    rw [h r hr]
    ring
  unfold weighted_edge
  rw [weightedEdgeFold_eq_sums]
  cases results with
  | nil =>
      simp
      norm_num
  | cons d rest =>
      simp only [List.isEmpty_cons, if_false, Bool.false_eq_true]
      by_cases hw : totalWeightOf (d :: rest) weights == 0.0
      · simp [hw]
        norm_num
      · simp only [hw, if_false, Bool.false_eq_true, hsum, clip,
          COMPOSITE_FLOOR, COMPOSITE_CEILING, RAW_TO_SCALE_FACTOR]
        norm_num

/-- A directional sum over results whose confidences are all zero is zero. -/
theorem aggregate_direction_allzero (results : List DimensionResult)
    (edge_attr : String) (h : ∀ r ∈ results, r.confidence = 0) :
    aggregate_direction results edge_attr = 0 := by
  unfold aggregate_direction
  apply List.sum_eq_zero
  intro x hx
  obtain ⟨r, hr, rfl⟩ := List.mem_map.mp hx
  rw [h r hr]
  ring

/-- Projection: the spread pick side of `analyze_matchup`. -/
theorem analyze_matchup_spread_pick (dims : String → DimFunc)
    (ctx : MatchupContext) :
    (analyze_matchup dims ctx).spread_pick =
      if aggregate_direction (matchupResults dims ctx) "spread_edge" ≥ 0
      then ctx.away_team else ctx.home_team := rfl

/-- Projection: the total pick side of `analyze_matchup`. -/
theorem analyze_matchup_total_pick (dims : String → DimFunc)
    (ctx : MatchupContext) :
    (analyze_matchup dims ctx).total_pick =
      if aggregate_direction (matchupResults dims ctx) "total_edge" ≥ 0
      then "OVER" else "UNDER" := rfl

/-- Projection: the spread confidence tier label of `analyze_matchup`. -/
theorem analyze_matchup_spread_confidence (dims : String → DimFunc)
    (ctx : MatchupContext) :
    (analyze_matchup dims ctx).spread_confidence =
      (assign_tier
        (compute_spread_composite (matchupResults dims ctx)
          DIMENSION_WEIGHTS)).value := rfl

/-- Projection: the total confidence tier label of `analyze_matchup`. -/
theorem analyze_matchup_total_confidence (dims : String → DimFunc)
    (ctx : MatchupContext) :
    (analyze_matchup dims ctx).total_confidence =
      (assign_tier
        (compute_total_composite (matchupResults dims ctx)
          DIMENSION_WEIGHTS)).value := rfl

/-- Projection: the market spread recorded on the card. -/
theorem analyze_matchup_spread (dims : String → DimFunc)
    (ctx : MatchupContext) :
    (analyze_matchup dims ctx).spread =
      if ¬ ctx.line.isEmpty then dictGet ctx.line "spread" 0.0 else 0.0 := rfl

/-- Projection: the market total recorded on the card. -/
theorem analyze_matchup_total (dims : String → DimFunc)
    (ctx : MatchupContext) :
    (analyze_matchup dims ctx).total =
      if ¬ ctx.line.isEmpty then dictGet ctx.line "total" 140.0 else 140.0 :=
  rfl

/-- Projection: the spread value edge recorded on the card. -/
theorem analyze_matchup_spread_value (dims : String → DimFunc)
    (ctx : MatchupContext) :
    (analyze_matchup dims ctx).spread_value =
      round1 ((projectedScores ctx (matchupResults dims ctx)).1 -
        (projectedScores ctx (matchupResults dims ctx)).2 -
        (if (if ¬ ctx.line.isEmpty then dictGet ctx.line "spread" 0.0
             else 0.0) == 0
         then 0
         else if ¬ ctx.line.isEmpty then dictGet ctx.line "spread" 0.0
         else 0.0)) := rfl

/-- Projection: the total value edge recorded on the card. -/
theorem analyze_matchup_total_value (dims : String → DimFunc)
    (ctx : MatchupContext) :
    (analyze_matchup dims ctx).total_value =
      round1 ((projectedScores ctx (matchupResults dims ctx)).1 +
        (projectedScores ctx (matchupResults dims ctx)).2 -
        (if (if ¬ ctx.line.isEmpty then dictGet ctx.line "total" 140.0
             else 140.0) == 0
         then 140
         else if ¬ ctx.line.isEmpty then dictGet ctx.line "total" 140.0
         else 140.0)) := rfl

/-- C1 counterexample: with every dimension source raising, both markets of
the resulting card carry the SKIP tier, yet the chosen sides are the
non-empty strings `"Duke"` (spread) and `"OVER"` (total): `analyze_matchup`
never forces a SKIP market's side to the empty string, so the claimed
if-and-only-if invariant fails. -/
theorem skip_pick_side_counterexample :
    (analyze_matchup dimsNone ctxEx).spread_confidence = "SKIP" ∧
    (analyze_matchup dimsNone ctxEx).total_confidence = "SKIP" ∧
    (analyze_matchup dimsNone ctxEx).spread_pick = "Duke" ∧
    (analyze_matchup dimsNone ctxEx).total_pick = "OVER" ∧
    ("Duke" : String) ≠ "" ∧ ("OVER" : String) ≠ "" := by
  have hall : ∀ r ∈ matchupResults dimsNone ctxEx, r.confidence = 0 := by
    intro r hr
    unfold matchupResults at hr
    obtain ⟨p, hp, rfl⟩ := List.mem_map.mp hr
    rw [run_dimension_dimsNone]
    norm_num [neutralResult]
  have hsc :
      compute_spread_composite (matchupResults dimsNone ctxEx)
        DIMENSION_WEIGHTS = 0 := by
    unfold compute_spread_composite
    exact weighted_edge_allzero _ _ _ hall
  have htc :
      compute_total_composite (matchupResults dimsNone ctxEx)
        DIMENSION_WEIGHTS = 0 := by
    unfold compute_total_composite
    exact weighted_edge_allzero _ _ _ hall
  have hsd :
      aggregate_direction (matchupResults dimsNone ctxEx) "spread_edge" = 0 :=
    aggregate_direction_allzero _ _ hall
  have htd :
      aggregate_direction (matchupResults dimsNone ctxEx) "total_edge" = 0 :=
    aggregate_direction_allzero _ _ hall
  refine ⟨?_, ?_, ?_, ?_, by decide, by decide⟩
  · rw [analyze_matchup_spread_confidence, hsc]
    norm_num [assign_tier, ConfidenceTier.value]
  · rw [analyze_matchup_total_confidence, htc]
    norm_num [assign_tier, ConfidenceTier.value]
  · rw [analyze_matchup_spread_pick, hsd]
    norm_num [ctxEx]
  · rw [analyze_matchup_total_pick, htd]
    norm_num

/-- C1 (amended): a market's chosen side is determined solely by the sign of
its confidence-weighted directional edge sum (non-negative chooses the
away side / OVER), independently of the tier; in particular, whenever the
team names are non-empty, both chosen sides are non-empty strings even when
the market's tier is SKIP — the SKIP tier never forces the side to the
empty string. -/
theorem pick_side_spec :
    ∀ (dims : String → DimFunc) (ctx : MatchupContext),
      ((analyze_matchup dims ctx).spread_pick =
        if aggregate_direction (matchupResults dims ctx) "spread_edge" ≥ 0
        then ctx.away_team else ctx.home_team) ∧
      ((analyze_matchup dims ctx).total_pick =
        if aggregate_direction (matchupResults dims ctx) "total_edge" ≥ 0
        then "OVER" else "UNDER") ∧
      (ctx.away_team ≠ "" → ctx.home_team ≠ "" →
        (analyze_matchup dims ctx).spread_pick ≠ "" ∧
        (analyze_matchup dims ctx).total_pick ≠ "") := by
  intro dims ctx
  refine ⟨analyze_matchup_spread_pick dims ctx,
    analyze_matchup_total_pick dims ctx, ?_⟩
  intro ha hh
  constructor
  · rw [analyze_matchup_spread_pick]
    split_ifs <;> assumption
  · rw [analyze_matchup_total_pick]
    split_ifs <;> decide

/-- C1 (amended) witness: the amended claim applied at the concrete
all-raising dimension sources and context (whose card has SKIP tiers on
both markets), discharging the non-empty-team-name hypotheses. -/
theorem pick_side_spec_witness :
    (analyze_matchup dimsNone ctxEx).spread_pick ≠ "" ∧
    (analyze_matchup dimsNone ctxEx).total_pick ≠ "" :=
  (pick_side_spec dimsNone ctxEx).2.2 (by decide) (by decide)

/-- C10: when the market-line series is empty, the card records a market
spread of `0.0` and a market total of `140.0`, and the value edges are
computed against those defaults (`spread_value = true_spread - 0`,
`total_value = projected_total - 140`, both rounded to one decimal as in the
source) rather than signalling that no market line exists. -/
theorem empty_line_defaults :
    ∀ (dims : String → DimFunc) (ctx : MatchupContext),
      ctx.line = [] →
      (analyze_matchup dims ctx).spread = 0 ∧
      (analyze_matchup dims ctx).total = 140 ∧
      (analyze_matchup dims ctx).spread_value =
        round1 ((projectedScores ctx (matchupResults dims ctx)).1 -
          (projectedScores ctx (matchupResults dims ctx)).2 - 0) ∧
      (analyze_matchup dims ctx).total_value =
        round1 ((projectedScores ctx (matchupResults dims ctx)).1 +
          (projectedScores ctx (matchupResults dims ctx)).2 - 140) := by
  intro dims ctx h
  have hempty : ctx.line.isEmpty = true := by
    rw [h]
    rfl
  refine ⟨?_, ?_, ?_, ?_⟩
  · rw [analyze_matchup_spread]
    simp [hempty]
    norm_num
  · rw [analyze_matchup_total]
    simp [hempty]
    norm_num
  · rw [analyze_matchup_spread_value]
    simp only [hempty, not_true, if_false, if_neg (by norm_num : ¬ False)]
    norm_num
  · rw [analyze_matchup_total_value]
    simp only [hempty, not_true, if_false, if_neg (by norm_num : ¬ False)]
    norm_num

/-- C10 witness: the empty-line default behaviour at the concrete context
with no market data and all-raising dimension sources. -/
theorem empty_line_defaults_witness :
    (analyze_matchup dimsNone ctxEx).spread = 0 ∧
    (analyze_matchup dimsNone ctxEx).total = 140 :=
  ⟨(empty_line_defaults dimsNone ctxEx rfl).1,
   (empty_line_defaults dimsNone ctxEx rfl).2.1⟩

/-- C9: `record_result` raises a value error if and only if the supplied
result code (upper-cased) is outside `{W, L, P}` or the pick type
(lower-cased) is outside `{spread, total}` — and the error is raised before
the `UPDATE`, so no row is modified; for valid inputs it updates exactly the
rows matched on game date, away team, home team and pick type whose outcome
is still unset (all other rows unchanged, and the reported row count is the
number of matches); when no unresolved matching row exists it returns the
table unchanged with row count zero, raising nothing. -/
theorem record_result_spec :
    ∀ (rows : List PickRow)
      (game_date away_team home_team pick_type result : String),
      ((∃ e,
          record_result rows game_date away_team home_team pick_type result =
            Except.error e) ↔
        (¬ (pyUpper result = "W" ∨ pyUpper result = "L" ∨
            pyUpper result = "P") ∨
         ¬ (pyLower pick_type = "spread" ∨ pyLower pick_type = "total"))) ∧
      (∀ rowsU n,
        record_result rows game_date away_team home_team pick_type result =
          Except.ok (rowsU, n) →
        rowsU.length = rows.length ∧
        n = rows.countP
            (matchesPick game_date away_team home_team (pyLower pick_type)) ∧
        ∀ i (hi : i < rows.length) (hiU : i < rowsU.length),
          (matchesPick game_date away_team home_team (pyLower pick_type)
              rows[i] = true →
            rowsU[i] = { rows[i] with result := some (pyUpper result) }) ∧
          (matchesPick game_date away_team home_team (pyLower pick_type)
              rows[i] = false →
            rowsU[i] = rows[i])) ∧
      (rows.countP
          (matchesPick game_date away_team home_team (pyLower pick_type)) =
            0 →
        ∀ rowsU n,
          record_result rows game_date away_team home_team pick_type result =
            Except.ok (rowsU, n) →
          rowsU = rows ∧ n = 0) := by
  intro rows game_date away_team home_team pick_type result
  by_cases h1 :
      pyUpper result = "W" ∨ pyUpper result = "L" ∨ pyUpper result = "P"
  · by_cases h2 : pyLower pick_type = "spread" ∨ pyLower pick_type = "total"
    · have hok :
          record_result rows game_date away_team home_team pick_type result =
            Except.ok
              (rows.map (fun r =>
                if matchesPick game_date away_team home_team
                    (pyLower pick_type) r then
                  { r with result := some (pyUpper result) }
                else r),
               rows.countP
                 (matchesPick game_date away_team home_team
                   (pyLower pick_type))) := by
        unfold record_result
        rw [if_neg (not_not_intro h1), if_neg (not_not_intro h2)]
      refine ⟨?_, ?_, ?_⟩
      · rw [hok]
        simp [h1, h2]
      · intro rowsU n heq
        rw [hok] at heq
        obtain ⟨hr, hn⟩ := Prod.mk.inj (Except.ok.inj heq)
        subst hr
        subst hn
        refine ⟨List.length_map _ _, rfl, ?_⟩
        intro i hi hiU
        constructor
        · intro hm
          rw [List.getElem_map, if_pos hm]
        · intro hm
          rw [List.getElem_map, if_neg (by simp [hm])]
      · intro hzero rowsU n heq
        rw [hok] at heq
        obtain ⟨hr, hn⟩ := Prod.mk.inj (Except.ok.inj heq)
        subst hr
        subst hn
        have hall := List.countP_eq_zero.mp hzero
        have hmap : rows.map (fun r =>
            if matchesPick game_date away_team home_team
                (pyLower pick_type) r then
              { r with result := some (pyUpper result) }
            else r) = rows := by
          have hcongr := List.map_congr_left
            (f := fun r =>
              if matchesPick game_date away_team home_team
                  (pyLower pick_type) r then
                { r with result := some (pyUpper result) }
              else r)
            (g := id) (l := rows)
            (fun r hr => by simp [hall r hr])
          rw [hcongr, List.map_id]
        exact ⟨hmap, hzero⟩
    · have herr :
          record_result rows game_date away_team home_team pick_type result =
            Except.error
              ("pick_type must be spread or total, got " ++
                pyLower pick_type) := by
        unfold record_result
        rw [if_neg (not_not_intro h1), if_pos h2]
      refine ⟨?_, ?_, ?_⟩
      · rw [herr]
        simp [h2]
      · intro rowsU n heq
        rw [herr] at heq
        exact absurd heq (by simp)
      · intro hzero rowsU n heq
        rw [herr] at heq
        exact absurd heq (by simp)
  · have herr :
        record_result rows game_date away_team home_team pick_type result =
          Except.error ("result must be W, L, or P, got " ++ pyUpper result) := by
      unfold record_result
      rw [if_pos h1]
    refine ⟨?_, ?_, ?_⟩
    · rw [herr]
      simp [h1]
    · intro rowsU n heq
      rw [herr] at heq
      exact absurd heq (by simp)
    · intro hzero rowsU n heq
      rw [herr] at heq
      exact absurd heq (by simp)

/-- C9 witness: invalid result code `"X"` is rejected as a value error, and
the valid mixed-case call (`"SPREAD"`, `"w"`) resolves the one matching
unresolved row (row count 1, table updated with `result = "W"`). -/
theorem record_result_spec_witness :
    (∃ e, record_result rowsEx "2025-01-01" "A" "B" "spread" "X" =
      Except.error e) ∧
    rowsUpdEx.length = rowsEx.length ∧
    (1 : ℕ) = rowsEx.countP
      (matchesPick "2025-01-01" "A" "B" (pyLower "SPREAD")) :=
  ⟨(record_result_spec rowsEx "2025-01-01" "A" "B" "spread" "X").1.mpr
      (Or.inl (by decide)),
   ((record_result_spec rowsEx "2025-01-01" "A" "B" "SPREAD" "w").2.1
      rowsUpdEx 1 rfl).1,
   ((record_result_spec rowsEx "2025-01-01" "A" "B" "SPREAD" "w").2.1
      rowsUpdEx 1 rfl).2.1⟩

/-- Summing `if p l then 1 else 0` over a list counts the satisfying
elements. -/
theorem sum_map_ite_count (labels : List String) (p : String → Bool) :
    (labels.map (fun l => if p l then (1 : ℕ) else 0)).sum =
      labels.countP p := by
  induction labels with
  | nil => rfl
  | cons a t ih =>
      by_cases h : p a <;>
        simp [List.countP_cons, h, ih, Nat.add_comm]

/-- If every element of `xs` satisfies exactly one of the label predicates,
the per-label filter lengths sum to the length of `xs`. -/
theorem sum_filter_length_partition (xs : List CalRow) (labels : List String)
    (p : String → CalRow → Bool)
    (h : ∀ x ∈ xs, labels.countP (fun l => p l x) = 1) :
    (labels.map (fun l => (xs.filter (p l)).length)).sum = xs.length := by
  induction xs with
  | nil => simp
  | cons x t ih =>
      have hx := h x (List.mem_cons_self x t)
      have ht := ih (fun y hy => h y (List.mem_cons_of_mem x hy))
      have hstep : ∀ l : String,
          ((x :: t).filter (p l)).length =
            (if p l x then (1 : ℕ) else 0) + (t.filter (p l)).length := by
        intro l
        by_cases hp : p l x <;> simp [List.filter_cons, hp, Nat.add_comm]
      calc (labels.map (fun l => ((x :: t).filter (p l)).length)).sum
          = (labels.map (fun l =>
              (if p l x then (1 : ℕ) else 0) + (t.filter (p l)).length)).sum := by
            rw [List.map_congr_left (fun l _ => hstep l)]
        _ = (labels.map (fun l => if p l x then (1 : ℕ) else 0)).sum +
              (labels.map (fun l => (t.filter (p l)).length)).sum :=
            List.sum_map_add
        _ = 1 + t.length := by rw [sum_map_ite_count, hx, ht]
        _ = (x :: t).length := by simp [Nat.add_comm]

/-- A composite in `[0, 10]` falls into exactly one of the five calibration
bands. -/
theorem binLabel_unique (c : ℚ) (h0 : 0 ≤ c) (h10 : c ≤ 10) :
    bin_labels.countP (fun l => binLabel c == some l) = 1 := by
  have hlt : (10 : ℚ) < 10.01 := by norm_num
  unfold binLabel
  split_ifs with h1 h2 h3 h4 h5 h6
  · linarith
  · decide
  · decide
  · decide
  · decide
  · decide
  · linarith

/-- Summing the emitted counts over the filter-mapped rows equals summing
the underlying per-label quantity, provided skipped labels carry zero. -/
theorem sum_counts_filterMap (labels : List String)
    (f : String → Option CalibrationRow) (g : String → ℕ)
    (hf : ∀ l, (f l = none → g l = 0) ∧
      (∀ row, f l = some row → row.count = g l)) :
    ((labels.filterMap f).map (fun row => row.count)).sum =
      (labels.map g).sum := by
  induction labels with
  | nil => rfl
  | cons a t ih =>
      cases hfa : f a with
      | none =>
          rw [List.filterMap_cons_none hfa]
          simp only [List.map_cons, List.sum_cons, ih, (hf a).1 hfa,
            Nat.zero_add]
      | some row =>
          rw [List.filterMap_cons_some hfa]
          simp only [List.map_cons, List.sum_cons, ih, (hf a).2 row hfa]

/-- C8: on inputs whose composite scores lie in `[0, 10]`, the calibration
table has no zero-count row, the counts over all emitted rows sum to the
number of decided (W or L) picks, every emitted row's predicted value is the
fixed midpoint constant of its band, and its actual value is the fraction of
wins inside the band. -/
theorem build_calibration_spec :
    ∀ df : List CalRow,
      (∀ r ∈ df, 0 ≤ r.composite_score ∧ r.composite_score ≤ 10) →
      (∀ row ∈ build_calibration df, 0 < row.count) ∧
      ((build_calibration df).map (fun row => row.count)).sum =
        (decidedRows df).length ∧
      (∀ row ∈ build_calibration df,
        (row.bin, row.predicted) ∈ bin_midpoints) ∧
      (∀ row ∈ build_calibration df,
        row.count = bandCount df row.bin ∧
        row.actual = (bandWins df row.bin : ℚ) / (bandCount df row.bin : ℚ)) := by
  intro df hrange
  by_cases hdec : (decidedRows df).isEmpty
  · have hb : build_calibration df = [] := by
      unfold build_calibration
      rw [if_pos hdec]
    have hlen : (decidedRows df).length = 0 :=
      List.length_eq_zero.mpr (List.isEmpty_iff.mp hdec)
    rw [hb, hlen]
    refine ⟨?_, rfl, ?_, ?_⟩ <;> intro row hrow <;> exact absurd hrow (by simp)
  · have hb : build_calibration df =
        bin_labels.filterMap (fun bin_label =>
          let bin_data := (decidedRows df).filter
            (fun r => binLabel r.composite_score == some bin_label)
          if bin_data.isEmpty then none
          else some
            { bin := bin_label
              predicted := dictGet bin_midpoints bin_label 0.0
              actual :=
                ((bin_data.countP (fun r => r.result == "W") : ℚ)) /
                  (bin_data.length : ℚ)
              count := bin_data.length }) := by
      unfold build_calibration
      rw [if_neg hdec]
    have hmem :
        ∀ row ∈ build_calibration df,
          ∃ l ∈ bin_labels,
            ¬ ((decidedRows df).filter
                (fun r => binLabel r.composite_score == some l)).isEmpty ∧
            row =
              { bin := l
                predicted := dictGet bin_midpoints l 0.0
                actual := ((bandWins df l : ℚ)) / (bandCount df l : ℚ)
                count := bandCount df l } := by
      intro row hrow
      rw [hb] at hrow
      obtain ⟨l, hl, hfl⟩ := List.mem_filterMap.mp hrow
      by_cases hbe : ((decidedRows df).filter
          (fun r => binLabel r.composite_score == some l)).isEmpty
      · rw [if_pos hbe] at hfl
        exact absurd hfl (by simp)
      · rw [if_neg hbe] at hfl
        refine ⟨l, hl, hbe, ?_⟩
        have := Option.some.inj hfl
        rw [← this]
        rfl
    refine ⟨?_, ?_, ?_, ?_⟩
    · intro row hrow
      obtain ⟨l, hl, hbe, hroweq⟩ := hmem row hrow
      rw [hroweq]
      have : bandCount df l ≠ 0 := by
        intro hzero
        exact hbe (List.isEmpty_iff.mpr (List.length_eq_zero.mp hzero))
      exact Nat.pos_of_ne_zero this
    · rw [hb]
      rw [sum_counts_filterMap bin_labels _
          (fun l => ((decidedRows df).filter
            (fun r => binLabel r.composite_score == some l)).length)
          ?hf]
      · exact sum_filter_length_partition (decidedRows df) bin_labels _
          (fun x hx => binLabel_unique x.composite_score
            (hrange x (List.mem_filter.mp hx).1).1
            (hrange x (List.mem_filter.mp hx).1).2)
      case hf =>
        intro l
        constructor
        · intro hnone
          by_cases hbe : ((decidedRows df).filter
              (fun r => binLabel r.composite_score == some l)).isEmpty
          · exact List.length_eq_zero.mpr (List.isEmpty_iff.mp hbe)
          · rw [if_neg hbe] at hnone
            exact absurd hnone (by simp)
        · intro row hsome
          by_cases hbe : ((decidedRows df).filter
              (fun r => binLabel r.composite_score == some l)).isEmpty
          · rw [if_pos hbe] at hsome
            exact absurd hsome (by simp)
          · rw [if_neg hbe] at hsome
            rw [← Option.some.inj hsome]
    · intro row hrow
      obtain ⟨l, hl, hbe, hroweq⟩ := hmem row hrow
      rw [hroweq]
      have hl5 : l = "0-2" ∨ l = "2-4.5" ∨ l = "4.5-7" ∨ l = "7-8.5" ∨
          l = "8.5-10" := by simpa [bin_labels] using hl
      rcases hl5 with rfl | rfl | rfl | rfl | rfl <;> simp [bin_midpoints, dictGet]
    · intro row hrow
      obtain ⟨l, hl, hbe, hroweq⟩ := hmem row hrow
      rw [hroweq]
      exact ⟨rfl, rfl⟩

/-- C8 witness: the calibration spec applied to a concrete input with three
decided picks (composites 1, 3, 3) and one push; the emitted counts sum to
the number of decided picks, 3. -/
theorem build_calibration_spec_witness :
    ((build_calibration dfEx).map (fun row => row.count)).sum =
      (decidedRows dfEx).length ∧
    (decidedRows dfEx).length = 3 :=
  ⟨(build_calibration_spec dfEx
      (by
        intro r hr
        simp only [dfEx, List.mem_cons, List.not_mem_nil, or_false] at hr
        rcases hr with rfl | rfl | rfl | rfl <;> norm_num)).2.1,
   rfl⟩

end NcaaBetting
